import Mathlib

/-!
Verification development for the cgminer munin plugin (`cgminer_.py`).

The Python source is shallowly embedded below:
* JSON scalar values carried in device records become `PyVal` (numbers are
  modelled as exact rationals, strings as `String`);
* the metaclass registry dispatch in `Device.__new__` becomes `findTag` over
  the registered tag list `REGISTRY`;
* `Device.__init__` becomes `initDevice`, `Device(data)` becomes `classify`;
* `configure` and `fetch` become pure line renderers; the implicit TCP
  requests performed by each access of the `CGMiner.devs` property are made
  observable by threading a connection log (`Conn`) through `configureM` and
  `fetchM`;
* `CGMiner.__call__`'s socket handling becomes `cgCall`, with the socket's
  behaviour abstracted as a `NetEnv` and `json.loads` as a parse function;
* the `__main__` block's argument handling becomes `selectMode`/`mainOutput`.
-/

/-- A scalar value held in a device record.  Python floats and ints are both
modelled as exact rationals. -/
inductive PyVal where
  | str (s : String)
  | num (q : ℚ)
deriving DecidableEq

deriving instance DecidableEq for Except

/-- Python `str()` of a value, used by the `'%s'` format conversions.
For an integral number this agrees with Python (`str(0) = "0"`); the decimal
rendering of non-integral floats is abstracted by `toString` on `ℚ`. -/
def pyStr (v : PyVal) : String :=
  match v with
  | PyVal.str s => s
  | PyVal.num q => if q.den = 1 then toString q.num else toString q

/-- Truncation toward zero, the conversion Python's `'%d'` applies to a
float argument. -/
def pyTrunc (q : ℚ) : Int :=
  Int.sign q.num * ((q.num.natAbs / q.den : ℕ) : ℤ)

/-- Python `'%d' % v`: an int/float is truncated toward zero; a string
argument raises `TypeError` (modelled as `none`). -/
def pyFmtD (v : PyVal) : Option String :=
  match v with
  | PyVal.num q => some (toString (pyTrunc q))
  | PyVal.str _ => none

/-- Python `'%f' % v`: fails on a string argument.  The decimal rendering of
the number is abstracted by `toString` on `ℚ` (no claim depends on it). -/
def pyFmtF (v : PyVal) : Option String :=
  match v with
  | PyVal.num q => some (toString q)
  | PyVal.str _ => none

/-- Python `v * k` for `v` a record value and `k` a float literal: raises
`TypeError` when `v` is a string. -/
def pyMulNum (v : PyVal) (k : ℚ) : Option ℚ :=
  match v with
  | PyVal.num q => some (q * k)
  | PyVal.str _ => none

/-- A device record as delivered by the daemon: a string-keyed mapping,
modelled as an association list in key insertion order (Python dicts are
iterated in insertion order). -/
abbrev Record := List (String × PyVal)

/-- The registered device type tags, in registry insertion order.
In the source these are the names of the `Device` subclasses `GPU` and `PGA`
collected by the metaclass into `Device.REGISTRY`. -/
def REGISTRY : List String := ["GPU", "PGA"]

/-- The typed device view produced by `Device.__init__`: `tag` is the name of
the dispatched subclass, `data` the raw record (kept for the `ident`
property), and the remaining fields are the attributes `__init__` assigns. -/
structure Device where
  tag : String
  data : Record
  accepted : PyVal
  enabled : Bool
  mh : PyVal
  rejected : PyVal
  temperature : PyVal
  utility : PyVal
  uptime : PyVal
deriving DecidableEq

/-- The `Device.ident` property: `self._data[self.__class__.__name__]`.
After classification the tag key is always present, so the default is never
reached on classifier-produced views. -/
def Device.ident (d : Device) : PyVal :=
  (d.data.lookup d.tag).getD (PyVal.str "")

/-- Errors raised during `Device(data)` construction: the `TypeError` for an
unknown device in `__new__`, and a `KeyError` for a missing field in
`__init__`. -/
inductive ClassifyError where
  | unknownDevice
  | keyError (field : String)
deriving DecidableEq

/-- The scan in `Device.__new__`: iterate the record's keys in order and
return the first one found in the registry. -/
def findTag (reg : List String) : Record → Option String
  | [] => none
  | (k, _) :: rest => if k ∈ reg then some k else findTag reg rest

/-- `data[k]` in `__init__`: look the field up, raising `KeyError` when it is
absent. -/
def getField (data : Record) (k : String) : Except ClassifyError PyVal :=
  match data.lookup k with
  | some v => Except.ok v
  | none => Except.error (ClassifyError.keyError k)

/-- `Device.__init__`, reading the fixed fields in source order and storing
them on the view (`enabled` compares the raw value against `'Y'`). -/
def initDevice (tag : String) (data : Record) : Except ClassifyError Device :=
  (getField data "Accepted").bind fun acc =>
  (getField data "Enabled").bind fun en =>
  (getField data "Total MH").bind fun mh =>
  (getField data "Rejected").bind fun rej =>
  (getField data "Temperature").bind fun temp =>
  (getField data "Utility").bind fun util =>
  (getField data "Device Elapsed").bind fun up =>
  Except.ok
    { tag := tag
      data := data
      accepted := acc
      enabled := en == PyVal.str "Y"
      mh := mh
      rejected := rej
      temperature := temp
      utility := util
      uptime := up }

/-- `Device(data)`: dispatch on the first registered tag key found in the
record (`__new__`), then initialize the view (`__init__`); `TypeError`
("Unknown Device") when no key matches. -/
def classify (data : Record) : Except ClassifyError Device :=
  match findTag REGISTRY data with
  | none => Except.error ClassifyError.unknownDevice
  | some tag => initDevice tag data

/-- The field names `Device.__init__` reads from the record. -/
def requiredFields : List String :=
  ["Accepted", "Enabled", "Total MH", "Rejected", "Temperature", "Utility",
   "Device Elapsed"]

theorem findTag_eq_head (reg : List String) :
    ∀ data : Record,
      findTag reg data
        = ((data.map Prod.fst).filter (fun k => decide (k ∈ reg))).head? := by
  intro data
  induction data with
  | nil => rfl
  | cons kv rest ih =>
    obtain ⟨k, v⟩ := kv
    by_cases hk : k ∈ reg
    · simp [findTag, hk]
    · simp [findTag, hk, ih]

theorem lookup_of_mem_keys {data : Record} {k : String}
    (h : k ∈ data.map Prod.fst) : ∃ v, data.lookup k = some v := by
  induction data with
  | nil => simp at h
  | cons kv rest ih =>
    obtain ⟨k', v'⟩ := kv
    rcases List.mem_cons.mp h with h1 | h2
    · simp at h1
      subst h1
      exact ⟨v', by simp [List.lookup]⟩
    · by_cases he : k = k'
      · subst he
        exact ⟨v', by simp [List.lookup]⟩
      · obtain ⟨v, hv⟩ := ih h2
        refine ⟨v, ?_⟩
        have hbe : (k == k') = false := beq_eq_false_iff_ne.mpr he
        simp [List.lookup, hbe, hv]

theorem initDevice_ok_fields {tag : String} {data : Record} {d : Device}
    (h : initDevice tag data = Except.ok d) : d.tag = tag ∧ d.data = data := by
  unfold initDevice at h
  cases hA : data.lookup "Accepted" <;>
    simp [getField, hA, Except.bind] at h
  cases hE : data.lookup "Enabled" <;>
    simp [getField, hE, Except.bind] at h
  cases hM : data.lookup "Total MH" <;>
    simp [getField, hM, Except.bind] at h
  cases hR : data.lookup "Rejected" <;>
    simp [getField, hR, Except.bind] at h
  cases hT : data.lookup "Temperature" <;>
    simp [getField, hT, Except.bind] at h
  cases hU : data.lookup "Utility" <;>
    simp [getField, hU, Except.bind] at h
  cases hD : data.lookup "Device Elapsed" <;>
    simp [getField, hD, Except.bind] at h
  cases h
  exact ⟨rfl, rfl⟩

theorem initDevice_ne_unknown (tag : String) (data : Record) :
    initDevice tag data ≠ Except.error ClassifyError.unknownDevice := by
  unfold initDevice
  cases hA : data.lookup "Accepted" <;>
    simp [getField, hA, Except.bind]
  cases hE : data.lookup "Enabled" <;>
    simp [getField, hE, Except.bind]
  cases hM : data.lookup "Total MH" <;>
    simp [getField, hM, Except.bind]
  cases hR : data.lookup "Rejected" <;>
    simp [getField, hR, Except.bind]
  cases hT : data.lookup "Temperature" <;>
    simp [getField, hT, Except.bind]
  cases hU : data.lookup "Utility" <;>
    simp [getField, hU, Except.bind]
  cases hD : data.lookup "Device Elapsed" <;>
    simp [getField, hD, Except.bind]

theorem initDevice_ok_of_required {tag : String} {data : Record}
    (hreq : ∀ k ∈ requiredFields, (data.lookup k).isSome) :
    ∃ d, initDevice tag data = Except.ok d ∧ d.tag = tag ∧ d.data = data := by
  have hA := Option.isSome_iff_exists.mp (hreq "Accepted" (by simp [requiredFields]))
  have hE := Option.isSome_iff_exists.mp (hreq "Enabled" (by simp [requiredFields]))
  have hM := Option.isSome_iff_exists.mp (hreq "Total MH" (by simp [requiredFields]))
  have hR := Option.isSome_iff_exists.mp (hreq "Rejected" (by simp [requiredFields]))
  have hT := Option.isSome_iff_exists.mp (hreq "Temperature" (by simp [requiredFields]))
  have hU := Option.isSome_iff_exists.mp (hreq "Utility" (by simp [requiredFields]))
  have hD := Option.isSome_iff_exists.mp (hreq "Device Elapsed" (by simp [requiredFields]))
  obtain ⟨a, ha⟩ := hA
  obtain ⟨e, he⟩ := hE
  obtain ⟨m, hm⟩ := hM
  obtain ⟨r, hr⟩ := hR
  obtain ⟨t, ht⟩ := hT
  obtain ⟨u, hu⟩ := hU
  obtain ⟨dl, hdl⟩ := hD
  refine ⟨{ tag := tag
            data := data
            accepted := a
            enabled := e == PyVal.str "Y"
            mh := m
            rejected := r
            temperature := t
            utility := u
            uptime := dl }, ?_, rfl, rfl⟩
  simp [initDevice, getField, ha, he, hm, hr, ht, hu, hdl, Except.bind]

/-- ASCII lowercasing of one character, as `str.lower()` acts on the
tag names (which are ASCII). -/
def lowerChar (c : Char) : Char :=
  if 'A' ≤ c ∧ c ≤ 'Z' then Char.ofNat (c.toNat + 32) else c

/-- `dev_type.lower()`. -/
def lowerStr (s : String) : String :=
  (s.data.map lowerChar).asString

/-- The per-device field identifier built (identically) in every group of
`configure` and `fetch`: `'%s_%s' % (dev_type.lower(), dev.ident)`. -/
def devPfx (dev : Device) : String :=
  lowerStr dev.tag ++ "_" ++ pyStr dev.ident

/-- The four declaration lines appended per device in the hashrate group of
`configure`. -/
def hashrateDecl (dev : Device) : List String :=
  [devPfx dev ++ ".label " ++ dev.tag ++ " " ++ pyStr dev.ident,
   devPfx dev ++ ".type DERIVE",
   devPfx dev ++ ".min 0",
   devPfx dev ++ ".draw AREASTACK"]

/-- The three declaration lines appended per device in the utility group of
`configure`. -/
def utilityDecl (dev : Device) : List String :=
  [devPfx dev ++ ".label " ++ dev.tag ++ " " ++ pyStr dev.ident,
   devPfx dev ++ ".type GAUGE",
   devPfx dev ++ ".draw LINE"]

/-- The three declaration lines appended per device in the temperature group
of `configure`. -/
def temperatureDecl (dev : Device) : List String :=
  [devPfx dev ++ ".label " ++ dev.tag ++ " " ++ pyStr dev.ident,
   devPfx dev ++ ".type GAUGE",
   devPfx dev ++ ".draw LINE"]

/-- The three declaration lines appended per device in the accepted group of
`configure`. -/
def acceptedDecl (dev : Device) : List String :=
  [devPfx dev ++ ".label " ++ dev.tag ++ " " ++ pyStr dev.ident,
   devPfx dev ++ ".type COUNTER",
   devPfx dev ++ ".draw AREASTACK"]

/-- The three declaration lines appended per device in the rejected group of
`configure`. -/
def rejectedDecl (dev : Device) : List String :=
  [devPfx dev ++ ".label " ++ dev.tag ++ " " ++ pyStr dev.ident,
   devPfx dev ++ ".type COUNTER",
   devPfx dev ++ ".draw AREASTACK"]

/-- `configure`, given the device list that its single `cgminer.devs` access
returned (the request itself is modelled in `configureM`). -/
def configure (devs : List Device) : List String :=
  (["multigraph cgminer_hashrate",
    "graph_category mining",
    "graph_title Hashrate",
    "graph_vlabel Hash/s",
    "graph_args --base 1000 --lower-limit 0"]
   ++ (devs.flatMap hashrateDecl
   ++ (["multigraph cgminer_utility",
        "graph_category mining",
        "graph_title Utility",
        "graph_vlabel Shares/Min"]
   ++ (devs.flatMap utilityDecl
   ++ (["multigraph cgminer_temperature",
        "graph_category mining",
        "graph_title Temperature",
        "graph_vlabel Degrees Celsius"]
   ++ (devs.flatMap temperatureDecl
   ++ (["multigraph cgminer_accepted",
        "graph_category mining",
        "graph_title Accepted",
        "graph_vlabel Shares"]
   ++ (devs.flatMap acceptedDecl
   ++ (["multigraph cgminer_rejected",
        "graph_category mining",
        "graph_title Rejected",
        "graph_vlabel Shares"]
   ++ devs.flatMap rejectedDecl)))))))))

/-- The hashrate value line of `fetch`:
`'%s.value %d' % (prefix, dev.mh * 1e6)`. -/
def hashLine (dev : Device) : Option String :=
  ((pyMulNum dev.mh 1000000).bind fun q => pyFmtD (PyVal.num q)).map
    fun s => devPfx dev ++ ".value " ++ s

/-- The utility value line of `fetch`: `'%s.value %f' % (prefix, dev.utility)`. -/
def utilLine (dev : Device) : Option String :=
  (pyFmtF dev.utility).map fun s => devPfx dev ++ ".value " ++ s

/-- The temperature value line of `fetch`. -/
def tempLine (dev : Device) : Option String :=
  (pyFmtF dev.temperature).map fun s => devPfx dev ++ ".value " ++ s

/-- The accepted value line of `fetch`: `'%s.value %d' % (prefix, dev.accepted)`. -/
def accLine (dev : Device) : Option String :=
  (pyFmtD dev.accepted).map fun s => devPfx dev ++ ".value " ++ s

/-- The rejected value line of `fetch`. -/
def rejLine (dev : Device) : Option String :=
  (pyFmtD dev.rejected).map fun s => devPfx dev ++ ".value " ++ s

/-- One `for dev in devs: lines.append(line(dev))` loop of `fetch`: a
formatting `TypeError` on any device aborts the whole render. -/
def renderGroup (line : Device → Option String) : List Device → Option (List String)
  | [] => some []
  | d :: rest =>
    match line d with
    | none => none
    | some s =>
      match renderGroup line rest with
      | none => none
      | some ss => some (s :: ss)

/-- The transport log of one process invocation: the commands sent to the
daemon, one entry per `CGMiner.__call__` (each is a fresh TCP connection). -/
structure Conn where
  log : List String
deriving DecidableEq

/-- The `CGMiner.devs` property: performs `self('devs')` — one TCP
request/response exchange — and returns the classified device list (`resp`
stands for the daemon's parsed, classified answer, which is the same on
every poll in this model). -/
def devsOnConn (resp : List Device) (c : Conn) : List Device × Conn :=
  (resp, ⟨c.log ++ ["devs"]⟩)

/-- `configure(cgminer)` with its transport effect: the device list is read
from `cgminer.devs` once and reused by all five groups. -/
def configureM (resp : List Device) (c0 : Conn) : List String × Conn :=
  let (devs, c1) := devsOnConn resp c0
  (configure devs, c1)

/-- `fetch(cgminer)` with its transport effect, translated loop by loop: the
local `devs` (read once) feeds only the hashrate group, while the utility,
temperature, accepted and rejected loops each read `cgminer.devs` again,
issuing a fresh request. -/
def fetchM (resp : List Device) (c0 : Conn) : Option (List String) × Conn :=
  let (devs, c1) := devsOnConn resp c0
  match renderGroup hashLine devs with
  | none => (none, c1)
  | some g1 =>
    let (d2, c2) := devsOnConn resp c1
    match renderGroup utilLine d2 with
    | none => (none, c2)
    | some g2 =>
      let (d3, c3) := devsOnConn resp c2
      match renderGroup tempLine d3 with
      | none => (none, c3)
      | some g3 =>
        let (d4, c4) := devsOnConn resp c3
        match renderGroup accLine d4 with
        | none => (none, c4)
        | some g4 =>
          let (d5, c5) := devsOnConn resp c4
          match renderGroup rejLine d5 with
          | none => (none, c5)
          | some g5 =>
            (some ("multigraph cgminer_hashrate"
                    :: (g1 ++ ("multigraph cgminer_utility"
                    :: (g2 ++ ("multigraph cgminer_temperature"
                    :: (g3 ++ ("multigraph cgminer_accepted"
                    :: (g4 ++ ("multigraph cgminer_rejected"
                    :: g5))))))))), c5)

/-- The lines `fetch` prints (transport log projected away). -/
def fetch (devs : List Device) : Option (List String) :=
  (fetchM devs ⟨[]⟩).1

/-- The two modes the `__main__` block can run in. -/
inductive Mode where
  | config
  | fetch
deriving DecidableEq

/-- Argument handling in `__main__`:
`if len(sys.argv) == 2 and sys.argv[1] == 'config'` selects `configure`,
everything else falls through to `fetch`.  `argv` includes the program name. -/
def selectMode (argv : List String) : Mode :=
  if argv.length = 2 ∧ argv.get? 1 = some "config" then Mode.config else Mode.fetch

/-- The lines printed by `__main__` for a given argument vector, with the
daemon's (classified) response fixed to `resp`. -/
def mainOutput (argv : List String) (resp : List Device) : Option (List String) :=
  match selectMode argv with
  | Mode.config => some (configure resp)
  | Mode.fetch => fetch resp

theorem flatMap_const_length {α : Type} (f : α → List String) (k : ℕ)
    (hf : ∀ a, (f a).length = k) :
    ∀ l : List α, (l.flatMap f).length = k * l.length := by
  intro l
  induction l with
  | nil => simp
  | cons a t ih =>
    simp [List.flatMap_cons, hf a, ih, Nat.mul_succ, Nat.add_comm]

theorem renderGroup_some_length {line : Device → Option String} :
    ∀ {devs : List Device} {out : List String},
      renderGroup line devs = some out → out.length = devs.length := by
  intro devs
  induction devs with
  | nil =>
    intro out h
    simp [renderGroup] at h
    simp [← h]
  | cons d t ih =>
    intro out h
    unfold renderGroup at h
    cases hl : line d with
    | none => simp [hl] at h
    | some s =>
      simp only [hl] at h
      cases ht : renderGroup line t with
      | none => simp [ht] at h
      | some ss =>
        simp only [ht] at h
        cases h
        simp [ih ht]

theorem configure_length (devs : List Device) :
    (configure devs).length = 21 + 16 * devs.length := by
  have h1 := flatMap_const_length hashrateDecl 4 (fun d => rfl) devs
  have h2 := flatMap_const_length utilityDecl 3 (fun d => rfl) devs
  have h3 := flatMap_const_length temperatureDecl 3 (fun d => rfl) devs
  have h4 := flatMap_const_length acceptedDecl 3 (fun d => rfl) devs
  have h5 := flatMap_const_length rejectedDecl 3 (fun d => rfl) devs
  simp [configure, h1, h2, h3, h4, h5]
  ring

theorem fetch_struct {devs : List Device} {lines : List String}
    (h : fetch devs = some lines) :
    ∃ g1 g2 g3 g4 g5,
      renderGroup hashLine devs = some g1 ∧
      renderGroup utilLine devs = some g2 ∧
      renderGroup tempLine devs = some g3 ∧
      renderGroup accLine devs = some g4 ∧
      renderGroup rejLine devs = some g5 ∧
      lines = "multigraph cgminer_hashrate"
               :: (g1 ++ ("multigraph cgminer_utility"
               :: (g2 ++ ("multigraph cgminer_temperature"
               :: (g3 ++ ("multigraph cgminer_accepted"
               :: (g4 ++ ("multigraph cgminer_rejected"
               :: g5)))))))) := by
  unfold fetch fetchM devsOnConn at h
  cases h1 : renderGroup hashLine devs with
  | none => simp [h1] at h
  | some g1 =>
    simp only [h1] at h
    cases h2 : renderGroup utilLine devs with
    | none => simp [h2] at h
    | some g2 =>
      simp only [h2] at h
      cases h3 : renderGroup tempLine devs with
      | none => simp [h3] at h
      | some g3 =>
        simp only [h3] at h
        cases h4 : renderGroup accLine devs with
        | none => simp [h4] at h
        | some g4 =>
          simp only [h4] at h
          cases h5 : renderGroup rejLine devs with
          | none => simp [h5] at h
          | some g5 =>
            simp only [h5] at h
            cases h
            exact ⟨g1, g2, g3, g4, g5, rfl, rfl, rfl, rfl, rfl, rfl⟩

theorem fetch_length {devs : List Device} {lines : List String}
    (h : fetch devs = some lines) : lines.length = 5 + 5 * devs.length := by
  obtain ⟨g1, g2, g3, g4, g5, h1, h2, h3, h4, h5, hl⟩ := fetch_struct h
  subst hl
  simp [renderGroup_some_length h1, renderGroup_some_length h2,
        renderGroup_some_length h3, renderGroup_some_length h4,
        renderGroup_some_length h5]
  ring

/-- The munin field identifier carried by an output line: the part of the
line before its first dot. -/
def fieldIdOf (s : String) : String :=
  (s.data.takeWhile (fun c => !(c == '.'))).asString

theorem takeWhile_no_dot_append (l2 : List Char) :
    ∀ l1 : List Char,
      (l1 ++ '.' :: l2).takeWhile (fun c => !(c == '.'))
        = l1.takeWhile (fun c => !(c == '.')) := by
  intro l1
  induction l1 with
  | nil => simp [List.takeWhile_cons]
  | cons c t ih =>
    by_cases hc : c = '.'
    · subst hc
      simp [List.takeWhile_cons]
    · have : (c == '.') = false := beq_eq_false_iff_ne.mpr hc
      simp [List.takeWhile_cons, this, ih]

theorem fieldIdOf_append_dot (p t : String) :
    fieldIdOf (p ++ ("." ++ t)) = fieldIdOf p := by
  unfold fieldIdOf
  have hd : (p ++ ("." ++ t)).data = p.data ++ '.' :: t.data := by
    rw [String.data_append, String.data_append]
    rfl
  rw [hd, takeWhile_no_dot_append]

theorem fieldIdOf_dot_append (p t : String) :
    fieldIdOf ((p ++ ".") ++ t) = fieldIdOf p := by
  unfold fieldIdOf
  have hd : ((p ++ ".") ++ t).data = p.data ++ '.' :: t.data := by
    rw [String.data_append, String.data_append]
    simp
  rw [hd, takeWhile_no_dot_append]

theorem hashrateDecl_shape (dev : Device) :
    ∀ s ∈ hashrateDecl dev, ∃ t, s = (devPfx dev ++ ".") ++ t := by
  intro s hs
  have hl : (devPfx dev ++ ".") ++ "label " = devPfx dev ++ ".label " :=
    String.append_assoc (devPfx dev) "." "label "
  simp only [hashrateDecl, List.mem_cons, List.not_mem_nil, or_false] at hs
  rcases hs with h | h | h | h <;> subst h
  · refine ⟨"label " ++ (dev.tag ++ (" " ++ pyStr dev.ident)), ?_⟩
    rw [← String.append_assoc, hl]
    simp only [String.append_assoc]
  · exact ⟨"type DERIVE",
      (String.append_assoc (devPfx dev) "." "type DERIVE").symm⟩
  · exact ⟨"min 0", (String.append_assoc (devPfx dev) "." "min 0").symm⟩
  · exact ⟨"draw AREASTACK",
      (String.append_assoc (devPfx dev) "." "draw AREASTACK").symm⟩

theorem gaugeDecl_shape (dev : Device) (decl : Device → List String)
    (hdecl : decl = utilityDecl ∨ decl = temperatureDecl) :
    ∀ s ∈ decl dev, ∃ t, s = (devPfx dev ++ ".") ++ t := by
  intro s hs
  have hl : (devPfx dev ++ ".") ++ "label " = devPfx dev ++ ".label " :=
    String.append_assoc (devPfx dev) "." "label "
  have hmem : s ∈ utilityDecl dev := by
    rcases hdecl with h | h <;> subst h <;>
      simpa [utilityDecl, temperatureDecl] using hs
  simp only [utilityDecl, List.mem_cons, List.not_mem_nil, or_false] at hmem
  rcases hmem with h | h | h <;> subst h
  · refine ⟨"label " ++ (dev.tag ++ (" " ++ pyStr dev.ident)), ?_⟩
    rw [← String.append_assoc, hl]
    simp only [String.append_assoc]
  · exact ⟨"type GAUGE",
      (String.append_assoc (devPfx dev) "." "type GAUGE").symm⟩
  · exact ⟨"draw LINE", (String.append_assoc (devPfx dev) "." "draw LINE").symm⟩

theorem counterDecl_shape (dev : Device) (decl : Device → List String)
    (hdecl : decl = acceptedDecl ∨ decl = rejectedDecl) :
    ∀ s ∈ decl dev, ∃ t, s = (devPfx dev ++ ".") ++ t := by
  intro s hs
  have hl : (devPfx dev ++ ".") ++ "label " = devPfx dev ++ ".label " :=
    String.append_assoc (devPfx dev) "." "label "
  have hmem : s ∈ acceptedDecl dev := by
    rcases hdecl with h | h <;> subst h <;>
      simpa [acceptedDecl, rejectedDecl] using hs
  simp only [acceptedDecl, List.mem_cons, List.not_mem_nil, or_false] at hmem
  rcases hmem with h | h | h <;> subst h
  · refine ⟨"label " ++ (dev.tag ++ (" " ++ pyStr dev.ident)), ?_⟩
    rw [← String.append_assoc, hl]
    simp only [String.append_assoc]
  · exact ⟨"type COUNTER",
      (String.append_assoc (devPfx dev) "." "type COUNTER").symm⟩
  · exact ⟨"draw AREASTACK",
      (String.append_assoc (devPfx dev) "." "draw AREASTACK").symm⟩

theorem fetchLine_shape (dev : Device) (line : Device → Option String)
    (hline : line = hashLine ∨ line = utilLine ∨ line = tempLine ∨
             line = accLine ∨ line = rejLine) :
    ∀ s, line dev = some s → ∃ t, s = (devPfx dev ++ ".") ++ t := by
  intro s hs
  have hv : ∀ x : String,
      (devPfx dev ++ ".value ") ++ x = (devPfx dev ++ ".") ++ ("value " ++ x) := by
    intro x
    rw [← String.append_assoc]
    have hval : (devPfx dev ++ ".") ++ "value " = devPfx dev ++ ".value " :=
      String.append_assoc (devPfx dev) "." "value "
    rw [hval]
  rcases hline with h | h | h | h | h <;> subst h
  · unfold hashLine pyMulNum at hs
    cases hm : dev.mh with
    | str s0 => simp [hm, pyFmtD, Option.bind] at hs
    | num q =>
      simp [hm, pyFmtD, Option.bind] at hs
      exact ⟨"value " ++ toString (pyTrunc (q * 1000000)), by rw [← hs]; exact hv _⟩
  · unfold utilLine at hs
    cases hm : dev.utility with
    | str s0 => simp [hm, pyFmtF] at hs
    | num q =>
      simp [hm, pyFmtF] at hs
      exact ⟨"value " ++ toString q, by rw [← hs]; exact hv _⟩
  · unfold tempLine at hs
    cases hm : dev.temperature with
    | str s0 => simp [hm, pyFmtF] at hs
    | num q =>
      simp [hm, pyFmtF] at hs
      exact ⟨"value " ++ toString q, by rw [← hs]; exact hv _⟩
  · unfold accLine at hs
    cases hm : dev.accepted with
    | str s0 => simp [hm, pyFmtD] at hs
    | num q =>
      simp [hm, pyFmtD] at hs
      exact ⟨"value " ++ toString (pyTrunc q), by rw [← hs]; exact hv _⟩
  · unfold rejLine at hs
    cases hm : dev.rejected with
    | str s0 => simp [hm, pyFmtD] at hs
    | num q =>
      simp [hm, pyFmtD] at hs
      exact ⟨"value " ++ toString (pyTrunc q), by rw [← hs]; exact hv _⟩

theorem renderGroup_fieldIds_map {line : Device → Option String}
    (shape : ∀ dev s, line dev = some s → ∃ t, s = (devPfx dev ++ ".") ++ t) :
    ∀ {devs : List Device} {out : List String},
      renderGroup line devs = some out →
      out.map fieldIdOf = devs.map fun d => fieldIdOf (devPfx d) := by
  intro devs
  induction devs with
  | nil =>
    intro out h
    simp [renderGroup] at h
    subst h
    simp
  | cons d t ih =>
    intro out h
    unfold renderGroup at h
    cases hl : line d with
    | none => simp [hl] at h
    | some s =>
      simp only [hl] at h
      cases ht : renderGroup line t with
      | none => simp [ht] at h
      | some ss =>
        simp only [ht] at h
        cases h
        obtain ⟨u, hu⟩ := shape d s hl
        simp [hu, fieldIdOf_dot_append, ih ht]

theorem flatMap_fieldIds_map {decl : Device → List String}
    (shape : ∀ dev, ∀ s ∈ decl dev, ∃ t, s = (devPfx dev ++ ".") ++ t)
    (k : ℕ) (hk : ∀ dev, (decl dev).length = k) :
    ∀ devs : List Device,
      (devs.flatMap decl).map fieldIdOf
        = devs.flatMap fun d => List.replicate k (fieldIdOf (devPfx d)) := by
  intro devs
  induction devs with
  | nil => simp
  | cons d t ih =>
    simp only [List.flatMap_cons, List.map_append, ih]
    congr 1
    refine List.eq_replicate_iff.mpr ⟨by simp [hk d], ?_⟩
    intro b hb
    obtain ⟨s, hs, hbs⟩ := List.mem_map.mp hb
    obtain ⟨u, hu⟩ := shape d s hs
    rw [← hbs, hu, fieldIdOf_dot_append]

theorem mem_flatMap_replicate {k : ℕ} (hk : k ≠ 0) (fid : Device → String)
    (devs : List Device) (x : String) :
    (x ∈ devs.flatMap fun d => List.replicate k (fid d)) ↔ ∃ d ∈ devs, x = fid d := by
  constructor
  · intro hx
    obtain ⟨d, hd, hx⟩ := List.mem_flatMap.mp hx
    exact ⟨d, hd, (List.mem_replicate.mp hx).2⟩
  · intro ⟨d, hd, hx⟩
    exact List.mem_flatMap.mpr ⟨d, hd, List.mem_replicate.mpr ⟨hk, hx⟩⟩

theorem groupIds_set_eq {decl : Device → List String} {line : Device → Option String}
    (shapeD : ∀ dev, ∀ s ∈ decl dev, ∃ t, s = (devPfx dev ++ ".") ++ t)
    (shapeL : ∀ dev s, line dev = some s → ∃ t, s = (devPfx dev ++ ".") ++ t)
    (k : ℕ) (hk0 : k ≠ 0) (hk : ∀ dev, (decl dev).length = k)
    {devs : List Device} {out : List String}
    (hout : renderGroup line devs = some out) (x : String) :
    x ∈ (devs.flatMap decl).map fieldIdOf ↔ x ∈ out.map fieldIdOf := by
  rw [flatMap_fieldIds_map shapeD k hk devs,
      renderGroup_fieldIds_map shapeL hout,
      mem_flatMap_replicate hk0 (fun d => fieldIdOf (devPfx d)) devs x]
  simp [List.mem_map, eq_comm]

/-- Abstracted behaviour of the daemon-side socket during one
`CGMiner.__call__`: whether `connect` and `send` succeed, and either the
received chunks (the daemon then closes the connection) or a receive error. -/
structure NetEnv where
  connectOk : Bool
  sendOk : Bool
  recv : Option (List String)

/-- The failure modes of `CGMiner.__call__`: a socket error during connect,
send or receive, or a `ValueError` from `json.loads` (which also covers the
empty-response case). -/
inductive CallErr where
  | connectErr
  | sendErr
  | recvErr
  | parseErr
deriving DecidableEq

/-- Outcome of one `CGMiner.__call__`: the returned value or propagated
exception, plus whether `sock.close()` was executed before control left the
function. -/
structure CallOutcome (α : Type) where
  result : Except CallErr α
  closed : Bool

/-- `buff.replace('\x00', '')`: strip every null byte from the response. -/
def stripNulls (s : String) : String :=
  (s.data.filter fun c => !(c == Char.ofNat 0)).asString

/-- `CGMiner.__call__`, control flow translated step by step: connect, send,
the `recv` loop concatenating chunks until a zero-length read, `sock.close()`,
null stripping, then `json.loads` (abstracted as `parse`).  A socket
exception propagates immediately — there is no `try`/`finally` — so `closed`
records whether the single `sock.close()` call was reached. -/
def cgCall {α : Type} (env : NetEnv) (parse : String → Option α) : CallOutcome α :=
  if env.connectOk = false then ⟨Except.error CallErr.connectErr, false⟩
  else if env.sendOk = false then ⟨Except.error CallErr.sendErr, false⟩
  else
    match env.recv with
    | none => ⟨Except.error CallErr.recvErr, false⟩
    | some chunks =>
      let buff := String.join chunks
      match parse (stripNulls buff) with
      | none => ⟨Except.error CallErr.parseErr, true⟩
      | some v => ⟨Except.ok v, true⟩

/-- A complete GPU record as the daemon reports it (the spec's worked
example, with `Total MH = 1234.5`). -/
def okRecord : Record :=
  [("GPU", PyVal.num 0), ("Accepted", PyVal.num 10), ("Enabled", PyVal.str "Y"),
   ("Total MH", PyVal.num 1234.5), ("Rejected", PyVal.num 1),
   ("Temperature", PyVal.num 65), ("Utility", PyVal.num 12),
   ("Device Elapsed", PyVal.num 3600)]

/-- A record carrying both registered tag keys (`GPU` first). -/
def ambRecord : Record :=
  [("GPU", PyVal.num 0), ("PGA", PyVal.num 1), ("Accepted", PyVal.num 10),
   ("Enabled", PyVal.str "Y"), ("Total MH", PyVal.num 550),
   ("Rejected", PyVal.num 1), ("Temperature", PyVal.num 65),
   ("Utility", PyVal.num 12), ("Device Elapsed", PyVal.num 3600)]

/-- The view classified from `ambRecord` (tag `GPU`, the first key hit). -/
def ambDev : Device :=
  { tag := "GPU"
    data := ambRecord
    accepted := PyVal.num 10
    enabled := true
    mh := PyVal.num 550
    rejected := PyVal.num 1
    temperature := PyVal.num 65
    utility := PyVal.num 12
    uptime := PyVal.num 3600 }

/-- The view classified from `okRecord`: a GPU at slot 0 with
`Total MH = 1234.5`. -/
def exDev : Device :=
  { tag := "GPU"
    data := okRecord
    accepted := PyVal.num 10
    enabled := true
    mh := PyVal.num 1234.5
    rejected := PyVal.num 1
    temperature := PyVal.num 65
    utility := PyVal.num 12
    uptime := PyVal.num 3600 }

/-- A second GPU view at slot 1 with `Total MH = 550.25` (the spec's other
worked hashrate example). -/
def exDevB : Device :=
  { tag := "GPU"
    data := [("GPU", PyVal.num 1)]
    accepted := PyVal.num 3
    enabled := true
    mh := PyVal.num 550.25
    rejected := PyVal.num 0
    temperature := PyVal.num 60
    utility := PyVal.num 7
    uptime := PyVal.num 60 }

/-- A GPU view colliding with `exDev`: same tag, same ident (slot 0), but
different readings. -/
def exDevDup : Device :=
  { tag := "GPU"
    data := [("GPU", PyVal.num 0)]
    accepted := PyVal.num 99
    enabled := true
    mh := PyVal.num 100
    rejected := PyVal.num 9
    temperature := PyVal.num 70
    utility := PyVal.num 2
    uptime := PyVal.num 10 }

theorem hashLine_exDev : hashLine exDev = some "gpu_0.value 1234500000" := by
  have hq : (1234.5 : ℚ) * 1000000 = (1234500000 : ℚ) := by norm_num
  show some (devPfx exDev ++ ".value " ++ toString (pyTrunc ((1234.5 : ℚ) * 1000000)))
        = some "gpu_0.value 1234500000"
  rw [hq]
  decide

theorem hashLine_exDevB : hashLine exDevB = some "gpu_1.value 550250000" := by
  have hq : (550.25 : ℚ) * 1000000 = (550250000 : ℚ) := by norm_num
  show some (devPfx exDevB ++ ".value " ++ toString (pyTrunc ((550.25 : ℚ) * 1000000)))
        = some "gpu_1.value 550250000"
  rw [hq]
  decide

theorem hashLine_exDevDup : hashLine exDevDup = some "gpu_0.value 100000000" := by
  have hq : (100 : ℚ) * 1000000 = (100000000 : ℚ) := by norm_num
  show some (devPfx exDevDup ++ ".value " ++ toString (pyTrunc ((100 : ℚ) * 1000000)))
        = some "gpu_0.value 100000000"
  rw [hq]
  decide

theorem fetch_exDev_exDevDup :
    fetch [exDev, exDevDup]
      = some ["multigraph cgminer_hashrate",
              "gpu_0.value 1234500000", "gpu_0.value 100000000",
              "multigraph cgminer_utility",
              "gpu_0.value 12", "gpu_0.value 2",
              "multigraph cgminer_temperature",
              "gpu_0.value 65", "gpu_0.value 70",
              "multigraph cgminer_accepted",
              "gpu_0.value 10", "gpu_0.value 99",
              "multigraph cgminer_rejected",
              "gpu_0.value 1", "gpu_0.value 9"] := by
  have h1 : renderGroup hashLine [exDev, exDevDup]
      = some ["gpu_0.value 1234500000", "gpu_0.value 100000000"] := by
    simp [renderGroup, hashLine_exDev, hashLine_exDevDup]
  have h2 : renderGroup utilLine [exDev, exDevDup]
      = some ["gpu_0.value 12", "gpu_0.value 2"] := by decide
  have h3 : renderGroup tempLine [exDev, exDevDup]
      = some ["gpu_0.value 65", "gpu_0.value 70"] := by decide
  have h4 : renderGroup accLine [exDev, exDevDup]
      = some ["gpu_0.value 10", "gpu_0.value 99"] := by decide
  have h5 : renderGroup rejLine [exDev, exDevDup]
      = some ["gpu_0.value 1", "gpu_0.value 9"] := by decide
  unfold fetch fetchM devsOnConn
  simp [h1, h2, h3, h4, h5]

/-- C1 counterexample: a record whose only key is the registered tag `GPU`
satisfies the claim's hypothesis (exactly one registered tag key), yet
`Device(data)` construction does not succeed — `__init__` raises
`KeyError('Accepted')`. -/
theorem c1_counterexample :
    classify [("GPU", PyVal.num 0)]
      = Except.error (ClassifyError.keyError "Accepted") := by decide

/-- C1 (amended): for every device record containing exactly one registered
tag key and all seven fields `__init__` reads, classification succeeds and
yields a view whose `type_tag` is that key and whose `ident` is the record's
value under that key. -/
theorem c1_classify_single_tag (data : Record) (t : String)
    (hfilter : (data.map Prod.fst).filter (fun k => decide (k ∈ REGISTRY)) = [t])
    (hreq : ∀ k ∈ requiredFields, (data.lookup k).isSome) :
    ∃ d v, classify data = Except.ok d ∧ d.tag = t ∧ data.lookup t = some v ∧
      d.ident = v := by
  have hft : findTag REGISTRY data = some t := by
    rw [findTag_eq_head, hfilter]
    rfl
  obtain ⟨d, hd, htag, hdata⟩ := @initDevice_ok_of_required t data hreq
  have ht_mem : t ∈ data.map Prod.fst := by
    have hmem : t ∈ (data.map Prod.fst).filter (fun k => decide (k ∈ REGISTRY)) := by
      simp [hfilter]
    exact List.mem_of_mem_filter hmem
  obtain ⟨v, hv⟩ := lookup_of_mem_keys ht_mem
  refine ⟨d, v, ?_, htag, hv, ?_⟩
  · unfold classify
    rw [hft]
    exact hd
  · unfold Device.ident
    rw [hdata, htag, hv]
    rfl

/-- C1 witness: the spec's worked GPU record classifies to a view with
`type_tag = "GPU"` and `ident` the value stored under `"GPU"`. -/
theorem c1_witness :
    ∃ d v, classify okRecord = Except.ok d ∧ d.tag = "GPU" ∧
      okRecord.lookup "GPU" = some v ∧ d.ident = v :=
  c1_classify_single_tag okRecord "GPU" (by decide) (by decide)

/-- C2 counterexample: a record carrying both registered tag keys (`GPU` and
`PGA`) is classified successfully — silently under the first tag — instead
of failing with the UnknownDeviceError-style error the claim requires. -/
theorem c2_counterexample :
    (classify ambRecord).isOk = true
      ∧ Except.map Device.tag (classify ambRecord) = Except.ok "GPU" := by decide

/-- C2 (amended): classification fails with the unknown-device `TypeError`
exactly when the record has zero registered tag keys; when it succeeds, the
selected `type_tag` is the first registered tag key in record key order
(so records with several tag keys are not rejected). -/
theorem c2_zero_or_first_tag (data : Record) :
    (classify data = Except.error ClassifyError.unknownDevice ↔
        (data.map Prod.fst).filter (fun k => decide (k ∈ REGISTRY)) = [])
    ∧ ∀ d, classify data = Except.ok d →
        ((data.map Prod.fst).filter (fun k => decide (k ∈ REGISTRY))).head?
          = some d.tag := by
  constructor
  · constructor
    · intro h
      by_contra hne
      cases hhead : ((data.map Prod.fst).filter (fun k => decide (k ∈ REGISTRY))).head? with
      | none => exact hne (List.head?_eq_none_iff.mp hhead)
      | some t =>
        have hft : findTag REGISTRY data = some t := by
          rw [findTag_eq_head, hhead]
        unfold classify at h
        rw [hft] at h
        exact initDevice_ne_unknown t data h
    · intro h
      have hft : findTag REGISTRY data = none := by
        rw [findTag_eq_head, h]
        rfl
      unfold classify
      rw [hft]
  · intro d h
    unfold classify at h
    cases hft : findTag REGISTRY data with
    | none =>
      rw [hft] at h
      cases h
    | some t =>
      rw [hft] at h
      rw [← findTag_eq_head, hft, (initDevice_ok_fields h).1]

/-- C2 witness: on the two-tag record, the classified tag is the head of the
record's registered-key list, namely `GPU`. -/
theorem c2_witness :
    ((ambRecord.map Prod.fst).filter (fun k => decide (k ∈ REGISTRY))).head?
      = some "GPU" := by
  have h := (c2_zero_or_first_tag ambRecord).2 ambDev (by decide)
  exact h

/-- C3: the claim says one `devs` request per invocation for both modes, and
`configure` indeed sends exactly one; but `fetch` re-reads `cgminer.devs` in
the utility, temperature, accepted and rejected loops (the local `devs`
bound at its top is used only for the hashrate group), so a fetch invocation
sends the `devs` command five times over five TCP connections. -/
theorem c3_fetch_five_requests :
    (fetchM [exDev] ⟨[]⟩).2.log = ["devs", "devs", "devs", "devs", "devs"]
    ∧ (configureM [exDev] ⟨[]⟩).2.log = ["devs"]
    ∧ ∀ (resp : List Device) (c : Conn),
        (configureM resp c).2.log = c.log ++ ["devs"] := by
  refine ⟨?_, rfl, fun resp c => rfl⟩
  have h1 : renderGroup hashLine [exDev] = some ["gpu_0.value 1234500000"] := by
    simp [renderGroup, hashLine_exDev]
  have h2 : renderGroup utilLine [exDev] = some ["gpu_0.value 12"] := by decide
  have h3 : renderGroup tempLine [exDev] = some ["gpu_0.value 65"] := by decide
  have h4 : renderGroup accLine [exDev] = some ["gpu_0.value 10"] := by decide
  have h5 : renderGroup rejLine [exDev] = some ["gpu_0.value 1"] := by decide
  unfold fetchM devsOnConn
  simp [h1, h2, h3, h4, h5]

theorem flatMap_sublist_of_mem {f : Device → List String} {dev : Device} :
    ∀ {devs : List Device}, dev ∈ devs → List.Sublist (f dev) (devs.flatMap f) := by
  intro devs h
  induction devs with
  | nil => simp at h
  | cons d t ih =>
    rcases List.mem_cons.mp h with h1 | h2
    · subst h1
      rw [List.flatMap_cons]
      exact List.sublist_append_left _ _
    · rw [List.flatMap_cons]
      exact (ih h2).trans (List.sublist_append_right _ _)

/-- C4 counterexample: with one GPU device, `configure` emits exactly one
`.type DERIVE` line and exactly one `.min 0` line (the claim predicts three
of each: hashrate, accepted and rejected), and it emits `.type COUNTER`
lines, which the claim's kinds (DERIVE/GAUGE) never produce. -/
theorem c4_counterexample :
    ((configure [exDev]).filter fun s => s = "gpu_0.type DERIVE").length = 1
    ∧ ((configure [exDev]).filter fun s => s = "gpu_0.min 0").length = 1
    ∧ "gpu_0.type COUNTER" ∈ configure [exDev]
    ∧ ((configure [exDev]).filter fun s => s = "gpu_0.type DERIVE").length ≠ 3 := by
  decide

/-- C4 (amended): per device, the hashrate group declares DERIVE with floor
zero and stacked-area draw; utility and temperature declare GAUGE with plain
line draw; accepted and rejected declare COUNTER (not DERIVE) with
stacked-area draw and no floor line; and `configure` output is exactly the
five header blocks with these per-device blocks spliced in. -/
theorem c4_config_declarations (devs : List Device) (dev : Device)
    (hdev : dev ∈ devs) :
    hashrateDecl dev
      = [devPfx dev ++ ".label " ++ dev.tag ++ " " ++ pyStr dev.ident,
         devPfx dev ++ ".type DERIVE", devPfx dev ++ ".min 0",
         devPfx dev ++ ".draw AREASTACK"]
    ∧ utilityDecl dev
      = [devPfx dev ++ ".label " ++ dev.tag ++ " " ++ pyStr dev.ident,
         devPfx dev ++ ".type GAUGE", devPfx dev ++ ".draw LINE"]
    ∧ temperatureDecl dev = utilityDecl dev
    ∧ acceptedDecl dev
      = [devPfx dev ++ ".label " ++ dev.tag ++ " " ++ pyStr dev.ident,
         devPfx dev ++ ".type COUNTER", devPfx dev ++ ".draw AREASTACK"]
    ∧ rejectedDecl dev = acceptedDecl dev
    ∧ List.Sublist (hashrateDecl dev) (devs.flatMap hashrateDecl)
    ∧ List.Sublist (utilityDecl dev) (devs.flatMap utilityDecl)
    ∧ List.Sublist (temperatureDecl dev) (devs.flatMap temperatureDecl)
    ∧ List.Sublist (acceptedDecl dev) (devs.flatMap acceptedDecl)
    ∧ List.Sublist (rejectedDecl dev) (devs.flatMap rejectedDecl)
    ∧ configure devs
      = ["multigraph cgminer_hashrate", "graph_category mining",
         "graph_title Hashrate", "graph_vlabel Hash/s",
         "graph_args --base 1000 --lower-limit 0"]
        ++ (devs.flatMap hashrateDecl
        ++ (["multigraph cgminer_utility", "graph_category mining",
             "graph_title Utility", "graph_vlabel Shares/Min"]
        ++ (devs.flatMap utilityDecl
        ++ (["multigraph cgminer_temperature", "graph_category mining",
             "graph_title Temperature", "graph_vlabel Degrees Celsius"]
        ++ (devs.flatMap temperatureDecl
        ++ (["multigraph cgminer_accepted", "graph_category mining",
             "graph_title Accepted", "graph_vlabel Shares"]
        ++ (devs.flatMap acceptedDecl
        ++ (["multigraph cgminer_rejected", "graph_category mining",
             "graph_title Rejected", "graph_vlabel Shares"]
        ++ devs.flatMap rejectedDecl)))))))) := by
  refine ⟨rfl, rfl, rfl, rfl, rfl, ?_, ?_, ?_, ?_, ?_, rfl⟩ <;>
    exact flatMap_sublist_of_mem hdev

/-- C4 witness: the concrete declaration blocks for the sample GPU device. -/
theorem c4_witness :
    hashrateDecl exDev
      = ["gpu_0.label GPU 0", "gpu_0.type DERIVE", "gpu_0.min 0",
         "gpu_0.draw AREASTACK"]
    ∧ acceptedDecl exDev
      = ["gpu_0.label GPU 0", "gpu_0.type COUNTER", "gpu_0.draw AREASTACK"] := by
  obtain ⟨h1, _, _, h4, _⟩ :=
    c4_config_declarations [exDev] exDev (List.mem_singleton.mpr rfl)
  constructor
  · rw [h1]
    decide
  · rw [h4]
    decide

/-- C5 counterexample: with an empty device list, Config output has 21 lines
(each group's separator plus its `graph_*` header lines), not the 5 lines
(one separator per group, zero data lines) the claim's counting implies. -/
theorem c5_counterexample :
    (configure ([] : List Device)).length = 21
    ∧ (configure ([] : List Device)).length ≠ 5 := by decide

/-- C5 (amended): per group, Config emits its header block (5 lines for
hashrate including the separator and `graph_args`, 4 lines for each other
group) plus 4 declaration lines per device in the hashrate group and 3 in
each other group — 21 + 16·N lines in total; Fetch emits one separator plus
exactly N value lines per group — 5 + 5·N lines; with an empty device list
Config is exactly the 21 header lines and Fetch exactly the 5 separators. -/
theorem c5_render_counts (devs : List Device) :
    (devs.flatMap hashrateDecl).length = 4 * devs.length
    ∧ (devs.flatMap utilityDecl).length = 3 * devs.length
    ∧ (devs.flatMap temperatureDecl).length = 3 * devs.length
    ∧ (devs.flatMap acceptedDecl).length = 3 * devs.length
    ∧ (devs.flatMap rejectedDecl).length = 3 * devs.length
    ∧ (configure devs).length = 21 + 16 * devs.length
    ∧ (∀ lines, fetch devs = some lines →
        (∃ g1 g2 g3 g4 g5,
          renderGroup hashLine devs = some g1
          ∧ renderGroup utilLine devs = some g2
          ∧ renderGroup tempLine devs = some g3
          ∧ renderGroup accLine devs = some g4
          ∧ renderGroup rejLine devs = some g5
          ∧ lines = "multigraph cgminer_hashrate"
              :: (g1 ++ ("multigraph cgminer_utility"
              :: (g2 ++ ("multigraph cgminer_temperature"
              :: (g3 ++ ("multigraph cgminer_accepted"
              :: (g4 ++ ("multigraph cgminer_rejected"
              :: g5))))))))
          ∧ g1.length = devs.length ∧ g2.length = devs.length
          ∧ g3.length = devs.length ∧ g4.length = devs.length
          ∧ g5.length = devs.length)
        ∧ lines.length = 5 + 5 * devs.length)
    ∧ configure ([] : List Device)
        = ["multigraph cgminer_hashrate", "graph_category mining",
           "graph_title Hashrate", "graph_vlabel Hash/s",
           "graph_args --base 1000 --lower-limit 0",
           "multigraph cgminer_utility", "graph_category mining",
           "graph_title Utility", "graph_vlabel Shares/Min",
           "multigraph cgminer_temperature", "graph_category mining",
           "graph_title Temperature", "graph_vlabel Degrees Celsius",
           "multigraph cgminer_accepted", "graph_category mining",
           "graph_title Accepted", "graph_vlabel Shares",
           "multigraph cgminer_rejected", "graph_category mining",
           "graph_title Rejected", "graph_vlabel Shares"]
    ∧ fetch ([] : List Device)
        = some ["multigraph cgminer_hashrate", "multigraph cgminer_utility",
                "multigraph cgminer_temperature", "multigraph cgminer_accepted",
                "multigraph cgminer_rejected"] := by
  refine ⟨flatMap_const_length hashrateDecl 4 (fun d => rfl) devs,
          flatMap_const_length utilityDecl 3 (fun d => rfl) devs,
          flatMap_const_length temperatureDecl 3 (fun d => rfl) devs,
          flatMap_const_length acceptedDecl 3 (fun d => rfl) devs,
          flatMap_const_length rejectedDecl 3 (fun d => rfl) devs,
          configure_length devs, ?_, by decide, by decide⟩
  intro lines h
  obtain ⟨g1, g2, g3, g4, g5, h1, h2, h3, h4, h5, hl⟩ := fetch_struct h
  exact ⟨⟨g1, g2, g3, g4, g5, h1, h2, h3, h4, h5, hl,
          renderGroup_some_length h1, renderGroup_some_length h2,
          renderGroup_some_length h3, renderGroup_some_length h4,
          renderGroup_some_length h5⟩, fetch_length h⟩

/-- C5 witness: the empty device list instantiates the Fetch count. -/
theorem c5_witness :
    ∃ lines, fetch ([] : List Device) = some lines ∧ lines.length = 5 + 5 * 0 := by
  have h0 : fetch ([] : List Device)
      = some ["multigraph cgminer_hashrate", "multigraph cgminer_utility",
              "multigraph cgminer_temperature", "multigraph cgminer_accepted",
              "multigraph cgminer_rejected"] := by decide
  exact ⟨_, h0, ((c5_render_counts []).2.2.2.2.2.2.1 _ h0).2⟩

theorem pyTrunc_eq_floor (q : ℚ) (hq : 0 ≤ q) : pyTrunc q = ⌊q⌋ := by
  rcases eq_or_lt_of_le hq with h0 | hpos
  · rw [← h0]
    simp [pyTrunc]
  · have hnum : 0 < q.num := Rat.num_pos.mpr hpos
    unfold pyTrunc
    rw [Rat.floor_def, Int.sign_eq_one_of_pos hnum, one_mul, Int.ofNat_tdiv,
        Int.natAbs_of_nonneg hnum.le, Int.tdiv_eq_ediv hnum.le (Int.ofNat_nonneg q.den)]

/-- C6: the Fetch-mode hashrate line renders exactly the truncation toward
zero of `mhs * 1_000_000` (for the nonnegative rates the daemon reports this
is the integer part `⌊mhs * 1000000⌋`). -/
theorem c6_hashrate_exact_trunc (dev : Device) (q : ℚ) (h : dev.mh = PyVal.num q) :
    hashLine dev
      = some (devPfx dev ++ ".value " ++ toString (pyTrunc (q * 1000000)))
    ∧ (0 ≤ q → pyTrunc (q * 1000000) = ⌊q * 1000000⌋) := by
  constructor
  · unfold hashLine pyMulNum
    rw [h]
    rfl
  · intro hq
    exact pyTrunc_eq_floor _ (mul_nonneg hq (by norm_num))

/-- C6 witness: the spec's worked examples — `mhs = 1234.5` renders as
`1234500000` and `mhs = 550.25` as `550250000`. -/
theorem c6_witness :
    hashLine exDev = some "gpu_0.value 1234500000"
    ∧ hashLine exDevB = some "gpu_1.value 550250000" := by
  constructor
  · rw [(c6_hashrate_exact_trunc exDev 1234.5 rfl).1,
        show (1234.5 : ℚ) * 1000000 = (1234500000 : ℚ) from by norm_num]
    decide
  · rw [(c6_hashrate_exact_trunc exDevB 550.25 rfl).1,
        show (550.25 : ℚ) * 1000000 = (550250000 : ℚ) from by norm_num]
    decide

/-- C7: every device line in every group of both outputs starts with the
field identifier `lower(type_tag) ++ "_" ++ str(ident)` followed by a dot,
and, per group, the set of field identifiers (the part of each line before
its first dot) emitted by Config equals the set emitted by Fetch for the
same device list. -/
theorem c7_field_identifiers (devs : List Device) :
    (∀ dev ∈ devs,
        devPfx dev = lowerStr dev.tag ++ "_" ++ pyStr dev.ident
        ∧ (∀ s ∈ hashrateDecl dev ++ (utilityDecl dev ++ (temperatureDecl dev
              ++ (acceptedDecl dev ++ rejectedDecl dev))),
            ∃ t, s = (devPfx dev ++ ".") ++ t)
        ∧ (∀ line ∈ [hashLine, utilLine, tempLine, accLine, rejLine], ∀ s,
            line dev = some s → ∃ t, s = (devPfx dev ++ ".") ++ t))
    ∧ (∀ out, renderGroup hashLine devs = some out → ∀ x,
        (x ∈ (devs.flatMap hashrateDecl).map fieldIdOf ↔ x ∈ out.map fieldIdOf))
    ∧ (∀ out, renderGroup utilLine devs = some out → ∀ x,
        (x ∈ (devs.flatMap utilityDecl).map fieldIdOf ↔ x ∈ out.map fieldIdOf))
    ∧ (∀ out, renderGroup tempLine devs = some out → ∀ x,
        (x ∈ (devs.flatMap temperatureDecl).map fieldIdOf ↔ x ∈ out.map fieldIdOf))
    ∧ (∀ out, renderGroup accLine devs = some out → ∀ x,
        (x ∈ (devs.flatMap acceptedDecl).map fieldIdOf ↔ x ∈ out.map fieldIdOf))
    ∧ (∀ out, renderGroup rejLine devs = some out → ∀ x,
        (x ∈ (devs.flatMap rejectedDecl).map fieldIdOf ↔ x ∈ out.map fieldIdOf)) := by
  refine ⟨?_, ?_, ?_, ?_, ?_, ?_⟩
  · intro dev _
    refine ⟨rfl, ?_, ?_⟩
    · intro s hs
      simp only [List.mem_append] at hs
      rcases hs with h | h | h | h | h
      · exact hashrateDecl_shape dev s h
      · exact gaugeDecl_shape dev utilityDecl (Or.inl rfl) s h
      · exact gaugeDecl_shape dev temperatureDecl (Or.inr rfl) s h
      · exact counterDecl_shape dev acceptedDecl (Or.inl rfl) s h
      · exact counterDecl_shape dev rejectedDecl (Or.inr rfl) s h
    · intro line hline s hs
      simp only [List.mem_cons, List.not_mem_nil, or_false] at hline
      refine fetchLine_shape dev line ?_ s hs
      tauto
  · intro out hout x
    exact groupIds_set_eq (fun d => hashrateDecl_shape d)
      (fun d => fetchLine_shape d hashLine (Or.inl rfl)) 4 (by decide)
      (fun d => rfl) hout x
  · intro out hout x
    exact groupIds_set_eq (fun d => gaugeDecl_shape d utilityDecl (Or.inl rfl))
      (fun d => fetchLine_shape d utilLine (Or.inr (Or.inl rfl))) 3 (by decide)
      (fun d => rfl) hout x
  · intro out hout x
    exact groupIds_set_eq (fun d => gaugeDecl_shape d temperatureDecl (Or.inr rfl))
      (fun d => fetchLine_shape d tempLine (Or.inr (Or.inr (Or.inl rfl)))) 3 (by decide)
      (fun d => rfl) hout x
  · intro out hout x
    exact groupIds_set_eq (fun d => counterDecl_shape d acceptedDecl (Or.inl rfl))
      (fun d => fetchLine_shape d accLine (Or.inr (Or.inr (Or.inr (Or.inl rfl))))) 3 (by decide)
      (fun d => rfl) hout x
  · intro out hout x
    exact groupIds_set_eq (fun d => counterDecl_shape d rejectedDecl (Or.inr rfl))
      (fun d => fetchLine_shape d rejLine (Or.inr (Or.inr (Or.inr (Or.inr rfl))))) 3 (by decide)
      (fun d => rfl) hout x

/-- C7 witness: for the sample device, the hashrate-group identifier set of
Config contains `gpu_0`, matching the Fetch value line's identifier. -/
theorem c7_witness :
    "gpu_0" ∈ (([exDev].flatMap hashrateDecl).map fieldIdOf)
    ∧ "gpu_0" ∈ ((["gpu_0.value 1234500000"]).map fieldIdOf) := by
  have hr : renderGroup hashLine [exDev] = some ["gpu_0.value 1234500000"] := by
    simp [renderGroup, hashLine_exDev]
  have h := ((c7_field_identifiers [exDev]).2.1 _ hr "gpu_0").mpr (by decide)
  exact ⟨h, by decide⟩

/-- C8 counterexample: invoked with one argument that is not `config`, the
entry point does not fail with a usage error — it falls through to Fetch
mode and produces metric output. -/
theorem c8_counterexample :
    selectMode ["cgminer_", "bogus"] = Mode.fetch
    ∧ mainOutput ["cgminer_", "bogus"] []
        = some ["multigraph cgminer_hashrate", "multigraph cgminer_utility",
                "multigraph cgminer_temperature", "multigraph cgminer_accepted",
                "multigraph cgminer_rejected"] := by decide

/-- C8 (amended): zero CLI arguments select Fetch mode and exactly one
argument equal to `config` selects Config mode, as claimed; but every other
argument combination (a different single argument, or two or more arguments)
also selects Fetch mode and produces fetch output — there is no usage-error
path. -/
theorem c8_mode_selection (prog a b : String) (rest : List String) :
    selectMode [prog] = Mode.fetch
    ∧ selectMode [prog, "config"] = Mode.config
    ∧ (a ≠ "config" → selectMode [prog, a] = Mode.fetch)
    ∧ selectMode (prog :: a :: b :: rest) = Mode.fetch
    ∧ mainOutput [prog] ([] : List Device) = fetch []
    ∧ (a ≠ "config" → mainOutput [prog, a] ([] : List Device) = fetch []) := by
  have h1 : selectMode [prog] = Mode.fetch := by
    unfold selectMode
    rw [if_neg]
    rintro ⟨hl, h2⟩
    simp at hl
  have h2 : ∀ x : String, x ≠ "config" → selectMode [prog, x] = Mode.fetch := by
    intro x hx
    unfold selectMode
    rw [if_neg]
    rintro ⟨hl, hg⟩
    simp at hg
    exact hx hg
  have h3 : selectMode (prog :: a :: b :: rest) = Mode.fetch := by
    unfold selectMode
    rw [if_neg]
    rintro ⟨hl, hg⟩
    simp at hl
  refine ⟨h1, ?_, h2 a, h3, ?_, ?_⟩
  · unfold selectMode
    rw [if_pos]
    exact ⟨rfl, rfl⟩
  · unfold mainOutput
    rw [h1]
  · intro hx
    unfold mainOutput
    rw [h2 a hx]

/-- C8 witness: a concrete bogus single argument selects Fetch mode. -/
theorem c8_witness :
    selectMode ["cgminer_", "totally-bogus"] = Mode.fetch
    ∧ mainOutput ["cgminer_", "totally-bogus"] ([] : List Device) = fetch [] := by
  have h := c8_mode_selection "cgminer_" "totally-bogus" "" []
  exact ⟨h.2.2.1 (by decide), h.2.2.2.2.2 (by decide)⟩

/-- C9 counterexample: when `connect` raises, `CGMiner.__call__` propagates
the exception without ever reaching `sock.close()` — the socket is not
closed on that exit path, contrary to the claim. -/
theorem c9_counterexample :
    (cgCall ⟨false, true, some []⟩ (fun _ => (none : Option Unit))).closed
      = false := rfl

/-- C9 (amended): the socket is closed before returning on the success,
empty-response and parse-failure paths (`sock.close()` precedes
`json.loads`), but on a socket error during connect, send or receive the
exception propagates with the socket left unclosed. -/
theorem c9_close_paths {α : Type} (env : NetEnv) (parse : String → Option α) :
    (env.connectOk = true → env.sendOk = true → ∀ chunks, env.recv = some chunks →
        (cgCall env parse).closed = true)
    ∧ ((env.connectOk = false ∨ env.sendOk = false ∨ env.recv = none) →
        (cgCall env parse).closed = false) := by
  constructor
  · intro hc hs chunks hr
    simp only [cgCall, hc, hs, hr]
    cases parse (stripNulls (String.join chunks)) <;> simp
  · rintro (h | h | h)
    · simp [cgCall, h]
    · cases hc : env.connectOk <;> simp [cgCall, h, hc]
    · cases hc : env.connectOk <;> cases hs : env.sendOk <;> simp [cgCall, h, hc, hs]

/-- C9 witness: closed on the empty-response/parse-failure path and on a
successful parse; not closed when `send` raises. -/
theorem c9_witness :
    (cgCall ⟨true, true, some []⟩ (fun _ => (none : Option Unit))).closed = true
    ∧ (cgCall ⟨true, true, some ["x"]⟩ (fun _ => some ())).closed = true
    ∧ (cgCall ⟨true, false, some []⟩ (fun _ => (none : Option Unit))).closed
        = false :=
  ⟨(c9_close_paths _ _).1 rfl rfl [] rfl,
   (c9_close_paths _ _).1 rfl rfl ["x"] rfl,
   (c9_close_paths _ _).2 (Or.inr (Or.inl rfl))⟩

/-- C10 (implicit): two views with the same tag and the same ident share the
same field identifier; both devices' lines are still emitted in full in both
modes (53 Config lines, 15 Fetch lines for a two-device list) with no
deduplication and no error, every one of the second device's lines carrying
the first device's identifier. -/
theorem c10_duplicate_identifier (d1 d2 : Device)
    (htag : d1.tag = d2.tag) (hid : d1.ident = d2.ident) :
    devPfx d1 = devPfx d2
    ∧ (configure [d1, d2]).length = 53
    ∧ [d1, d2].flatMap acceptedDecl = acceptedDecl d1 ++ acceptedDecl d2
    ∧ (∀ lines, fetch [d1, d2] = some lines → lines.length = 15)
    ∧ (∀ s, utilLine d2 = some s → ∃ t, s = (devPfx d1 ++ ".") ++ t)
    ∧ (∀ s ∈ acceptedDecl d2, ∃ t, s = (devPfx d1 ++ ".") ++ t) := by
  have hp : devPfx d1 = devPfx d2 := by
    unfold devPfx
    rw [htag, hid]
  refine ⟨hp, ?_, by simp [List.flatMap_cons], ?_, ?_, ?_⟩
  · rw [configure_length]
    rfl
  · intro lines h
    rw [fetch_length h]
    rfl
  · intro s hs
    rw [hp]
    exact fetchLine_shape d2 utilLine (Or.inr (Or.inl rfl)) s hs
  · intro s hs
    rw [hp]
    exact counterDecl_shape d2 acceptedDecl (Or.inl rfl) s hs

/-- C10 witness: the two colliding sample GPUs (both ident 0) render under
the identical identifier `gpu_0`, with all 15 Fetch lines emitted. -/
theorem c10_witness :
    devPfx exDev = devPfx exDevDup
    ∧ ∃ lines, fetch [exDev, exDevDup] = some lines ∧ lines.length = 15 := by
  have h := c10_duplicate_identifier exDev exDevDup rfl (by decide)
  exact ⟨h.1, ⟨_, fetch_exDev_exDevDup,
    h.2.2.2.1 _ fetch_exDev_exDevDup⟩⟩
